import Mathlib

/-!
Verification development for the `mode-ng` service supervision framework.

The repository snapshot contains the changelogs, documentation and an example
notebook, but not the implementation modules themselves (`services.py`,
`timers.py`, `worker.py`, `utils/times.py`).  All definitions below are
therefore modelled from the specification (and, where they record behaviour,
from the changelog entries and the example notebook), as their doc comments
state.
-/

namespace ModeNG

/-- Modelled from the spec: the lifecycle states of a service
(§3 Data model / §4.3 Lifecycle state machine; `services.py` is not in the
source tree). -/
inductive SState where
  | init
  | starting
  | running
  | stopping
  | shutdown
  | crashed
  deriving DecidableEq, Repr, Fintype

/-- Modelled from the spec: the events that cause lifecycle transitions
(§4.3: `start()`, successful `on_started`, `stop()`, successful drain,
activity crash, `restart()`). -/
inductive SLabel where
  | callStart
  | onStartedOk
  | callStop
  | drainOk
  | activityCrash
  | callRestart
  deriving DecidableEq, Repr, Fintype

/-- Modelled from the spec: the transition table of §4.3 ("only these
transitions are valid").  `none` means the event does not change the state. -/
def transition : SState → SLabel → Option SState
  | .init, .callStart => some .starting
  | .starting, .onStartedOk => some .running
  | .running, .callStop => some .stopping
  | .stopping, .drainOk => some .shutdown
  | .starting, .activityCrash => some .crashed
  | .running, .activityCrash => some .crashed
  | .stopping, .activityCrash => some .crashed
  | .shutdown, .callRestart => some .init
  | .crashed, .callRestart => some .init
  | _, _ => none

/-- Position of a state along the lifecycle order
Init → Starting → Running → Stopping → Shutdown, with Crashed a terminal
state at the same depth as Shutdown. -/
def rank : SState → Nat
  | .init => 0
  | .starting => 1
  | .running => 2
  | .stopping => 3
  | .shutdown => 4
  | .crashed => 4

/-- C1: every transition of the lifecycle table other than `restart()` moves
the state strictly forward along the lifecycle order, so within a single
lifecycle (restart excluded) no operation ever moves the state backwards. -/
theorem lifecycle_monotone :
    ∀ (s s' : SState) (l : SLabel), l ≠ SLabel.callRestart →
      transition s l = some s' → rank s < rank s' := by
  decide

/-- Concrete instance of `lifecycle_monotone`: `start()` from Init. -/
theorem lifecycle_monotone_witness :
    SLabel.callStart ≠ SLabel.callRestart ∧
    transition SState.init SLabel.callStart = some SState.starting ∧
    rank SState.init < rank SState.starting :=
  ⟨by decide, by decide,
    lifecycle_monotone SState.init SState.starting SLabel.callStart
      (by decide) (by decide)⟩

/-- Modelled from the spec: error kinds of §7 that the modelled operations
can raise (`InvalidState`, `InvalidArgument`). -/
inductive ModeError where
  | invalidState
  | invalidArgument
  deriving DecidableEq, Repr

/-- Modelled from the spec: the observable record of a single service
(§3 Data model), tracking the lifecycle state, the level-triggered
`started`/`stopped`/`shutdown` flags, how many times each hook has run, and
the runtime dependencies (`services.py` is not in the source tree). -/
structure ServiceRec where
  state : SState
  startedFlag : Bool
  stoppedFlag : Bool
  shutdownFlag : Bool
  nFirstStart : Nat
  nOnStart : Nat
  nOnStarted : Nat
  nOnStop : Nat
  nOnShutdown : Nat
  runtimeDeps : List Nat
  deriving DecidableEq, Repr

/-- A freshly constructed service: state Init, no flags raised, no hooks run. -/
def ServiceRec.fresh : ServiceRec :=
  ⟨.init, false, false, false, 0, 0, 0, 0, 0, []⟩

/-- Modelled from the spec: the start protocol of §4.3 for a leaf service whose
hooks do not crash.  Step 1: if state ≠ Init return without running any hook.
Otherwise fire `on_first_start` (once per construction), `on_start`, launch
activities, fire `on_started`, raise `started`, move the state to Running. -/
def startCall (s : ServiceRec) : ServiceRec :=
  if s.state ≠ SState.init then s
  else
    { s with
      state := .running
      startedFlag := true
      nFirstStart := if s.nFirstStart = 0 then 1 else s.nFirstStart
      nOnStart := s.nOnStart + 1
      nOnStarted := s.nOnStarted + 1 }

/-- Modelled from the spec: the stop protocol of §4.3 for a leaf service.
Step 1: if state ∈ {Init, Shutdown, Crashed}, raise `stopped` and return
without performing the shutdown sequence.  Otherwise fire `on_stop`, drain,
fire `on_shutdown`, raise `stopped` and `shutdown`, move the state to
Shutdown. -/
def stopCall (s : ServiceRec) : ServiceRec :=
  if s.state = SState.init ∨ s.state = SState.shutdown ∨ s.state = SState.crashed then
    { s with stoppedFlag := true }
  else
    { s with
      state := .shutdown
      stoppedFlag := true
      shutdownFlag := true
      nOnStop := s.nOnStop + 1
      nOnShutdown := s.nOnShutdown + 1 }

/-- Repeated application of `startCall` stabilises after the first call. -/
theorem startCall_idem (s : ServiceRec) : startCall (startCall s) = startCall s := by
  by_cases h : s.state = SState.init
  · simp [startCall, h]
  · simp [startCall, h]

/-- C3: `start()` is idempotent: for every n > 0, n calls return the same
terminal outcome as a single call; each start hook runs exactly once per
lifecycle when starting from Init; and a call made when the state is not
Init re-runs no hooks. -/
theorem start_idempotent (s : ServiceRec) (n : Nat) (hn : 0 < n) :
    startCall^[n] s = startCall s ∧
    (s.state ≠ SState.init → startCall s = s) ∧
    (s.state = SState.init → s.nFirstStart = 0 →
      (startCall^[n] s).nFirstStart = 1 ∧
      (startCall^[n] s).nOnStart = s.nOnStart + 1 ∧
      (startCall^[n] s).nOnStarted = s.nOnStarted + 1) := by
  obtain ⟨k, rfl⟩ := Nat.exists_eq_add_of_lt hn
  have hiter : startCall^[0 + k + 1] s = startCall s := by
    rw [Nat.zero_add, Function.iterate_succ_apply]
    exact Function.iterate_fixed (startCall_idem s) k
  refine ⟨hiter, fun h => by simp [startCall, h], fun h1 h2 => ?_⟩
  rw [hiter]
  simp [startCall, h1, h2]

/-- Concrete instance of `start_idempotent`: two calls on a fresh service. -/
theorem start_idempotent_witness :
    startCall^[2] ServiceRec.fresh = startCall ServiceRec.fresh ∧
    (ServiceRec.fresh.state ≠ SState.init → startCall ServiceRec.fresh = ServiceRec.fresh) ∧
    (ServiceRec.fresh.state = SState.init → ServiceRec.fresh.nFirstStart = 0 →
      (startCall^[2] ServiceRec.fresh).nFirstStart = 1 ∧
      (startCall^[2] ServiceRec.fresh).nOnStart = ServiceRec.fresh.nOnStart + 1 ∧
      (startCall^[2] ServiceRec.fresh).nOnStarted = ServiceRec.fresh.nOnStarted + 1) :=
  start_idempotent ServiceRec.fresh 2 (by decide)

/-- C4: after `stop()` completes the `stopped` flag is raised, whatever the
prior state; and when the state is Init, Shutdown or Crashed the call returns
without performing the shutdown sequence (no `on_stop`/`on_shutdown` runs,
the state does not change). -/
theorem stop_raises_stopped (s : ServiceRec) :
    (stopCall s).stoppedFlag = true ∧
    (s.state = SState.init ∨ s.state = SState.shutdown ∨ s.state = SState.crashed →
      (stopCall s).nOnStop = s.nOnStop ∧
      (stopCall s).nOnShutdown = s.nOnShutdown ∧
      (stopCall s).state = s.state) := by
  by_cases h : s.state = SState.init ∨ s.state = SState.shutdown ∨ s.state = SState.crashed
  · simp [stopCall, h]
  · simp [stopCall, h]

/-- Concrete instance of `stop_raises_stopped`: stopping a never-started
(fresh, Init) service raises `stopped` and runs no shutdown hook. -/
theorem stop_raises_stopped_witness :
    (stopCall ServiceRec.fresh).stoppedFlag = true ∧
    (ServiceRec.fresh.state = SState.init ∨ ServiceRec.fresh.state = SState.shutdown ∨
        ServiceRec.fresh.state = SState.crashed →
      (stopCall ServiceRec.fresh).nOnStop = ServiceRec.fresh.nOnStop ∧
      (stopCall ServiceRec.fresh).nOnShutdown = ServiceRec.fresh.nOnShutdown ∧
      (stopCall ServiceRec.fresh).state = ServiceRec.fresh.state) :=
  stop_raises_stopped ServiceRec.fresh

/-- Modelled from the spec: `add_runtime_dependency` (§4.5 / §9: runtime
dependencies may be added only while the parent state is Starting or Running;
otherwise the call fails with `InvalidState`).  On success the child is
appended to the reverse-stop list. -/
def add_runtime_dependency (s : ServiceRec) (child : Nat) : Except ModeError ServiceRec :=
  if s.state = SState.starting ∨ s.state = SState.running then
    .ok { s with runtimeDeps := s.runtimeDeps ++ [child] }
  else
    .error .invalidState

/-- C9: `add_runtime_dependency` succeeds exactly while the parent state is
Starting or Running, appending the child; in any other state it fails with
`InvalidState`, producing no updated service (the child is not added). -/
theorem add_runtime_dependency_guard (s : ServiceRec) (c : Nat) :
    (s.state = SState.starting ∨ s.state = SState.running →
      add_runtime_dependency s c = .ok { s with runtimeDeps := s.runtimeDeps ++ [c] }) ∧
    (¬(s.state = SState.starting ∨ s.state = SState.running) →
      add_runtime_dependency s c = .error ModeError.invalidState) := by
  constructor
  · intro h; simp [add_runtime_dependency, h]
  · intro h; simp [add_runtime_dependency, h]

/-- Concrete instance of `add_runtime_dependency_guard`: a Running parent
accepts the child; a Stopping parent is covered by evaluating the guard. -/
theorem add_runtime_dependency_guard_witness :
    (ServiceRec.fresh.state = SState.starting ∨ ServiceRec.fresh.state = SState.running →
      add_runtime_dependency ServiceRec.fresh 7 =
        .ok { ServiceRec.fresh with runtimeDeps := ServiceRec.fresh.runtimeDeps ++ [7] }) ∧
    (¬(ServiceRec.fresh.state = SState.starting ∨ ServiceRec.fresh.state = SState.running) →
      add_runtime_dependency ServiceRec.fresh 7 = .error ModeError.invalidState) :=
  add_runtime_dependency_guard ServiceRec.fresh 7

/-- Modelled from the spec: a supervision tree (§4.5): a service identified by
a name, with its ordered list of declared children. -/
inductive SvcTree where
  | node : Nat → List SvcTree → SvcTree

/-- Name of the root service of a tree. -/
def SvcTree.name : SvcTree → Nat
  | .node n _ => n

/-- Declared children of the root service of a tree. -/
def SvcTree.children : SvcTree → List SvcTree
  | .node _ cs => cs

/-- Flag-raise events observable during startup and shutdown of a tree. -/
inductive SvcEvent where
  | startedFlag : Nat → SvcEvent
  | stoppedFlag : Nat → SvcEvent
  deriving DecidableEq, Repr

/-- Modelled from the spec: the sequence of `started`-flag raises produced by
the start protocol (§4.3 steps 3 and 6): each declared child is started and
awaited in declaration order, and only then does the parent raise its own
`started`. -/
def startTrace : SvcTree → List SvcEvent
  | .node n cs =>
      (cs.attach.map fun c => startTrace c.1).flatten ++ [SvcEvent.startedFlag n]
termination_by t => sizeOf t
decreasing_by
  simp only [SvcTree.node.sizeOf_spec]
  have := List.sizeOf_lt_of_mem c.2
  omega

/-- Modelled from the spec: the sequence of `stopped`-flag raises produced
by the stop protocol (§4.3 steps 4 and 7): the declared children are stopped
in reverse start order, and only then does the parent raise its own
`stopped`. -/
def stopTrace : SvcTree → List SvcEvent
  | .node n cs =>
      (cs.reverse.attach.map fun c => stopTrace c.1).flatten ++ [SvcEvent.stoppedFlag n]
termination_by t => sizeOf t
decreasing_by
  simp only [SvcTree.node.sizeOf_spec]
  have := List.sizeOf_lt_of_mem (List.mem_reverse.1 c.2)
  omega

/-- Every tree's start trace contains the root's `started` event. -/
theorem startedFlag_mem_startTrace (t : SvcTree) :
    SvcEvent.startedFlag t.name ∈ startTrace t := by
  obtain ⟨n, cs⟩ := t
  rw [startTrace]
  exact List.mem_append_right _ (List.mem_singleton.2 rfl)

/-- Every tree's stop trace contains the root's `stopped` event. -/
theorem stoppedFlag_mem_stopTrace (t : SvcTree) :
    SvcEvent.stoppedFlag t.name ∈ stopTrace t := by
  obtain ⟨n, cs⟩ := t
  rw [stopTrace]
  exact List.mem_append_right _ (List.mem_singleton.2 rfl)

/-- C2: a parent's `started` flag raises only after every declared child has
raised `started`, and its `stopped` flag raises only after every declared
child has raised `stopped`: in both traces the parent's event is last, and
each child's corresponding event occurs in the part of the trace preceding
it. -/
theorem parent_flags_after_children (t : SvcTree) :
    (∃ pre, startTrace t = pre ++ [SvcEvent.startedFlag t.name] ∧
      ∀ c ∈ t.children, SvcEvent.startedFlag c.name ∈ pre) ∧
    (∃ pre, stopTrace t = pre ++ [SvcEvent.stoppedFlag t.name] ∧
      ∀ c ∈ t.children, SvcEvent.stoppedFlag c.name ∈ pre) := by
  obtain ⟨n, cs⟩ := t
  constructor
  · refine ⟨(cs.attach.map fun c => startTrace c.1).flatten, by rw [startTrace]; rfl, ?_⟩
    intro c hc
    refine List.mem_flatten.2 ⟨startTrace c, ?_, startedFlag_mem_startTrace c⟩
    exact List.mem_map.2 ⟨⟨c, hc⟩, List.mem_attach _ _, rfl⟩
  · refine ⟨(cs.reverse.attach.map fun c => stopTrace c.1).flatten, by rw [stopTrace]; rfl, ?_⟩
    intro c hc
    refine List.mem_flatten.2 ⟨stopTrace c, ?_, stoppedFlag_mem_stopTrace c⟩
    exact List.mem_map.2 ⟨⟨c, List.mem_reverse.2 hc⟩, List.mem_attach _ _, rfl⟩

/-- Modelled from the spec: the loop-task runner (§4.4): it invokes the task
function once; when the function returns normally, the task is rescheduled
after yielding exactly when it is not one-shot and the service is still
Running.  `running k` says whether the service is still Running when the
function returns from its k-th invocation; `fuel` bounds the number of
scheduling rounds; the result counts how many times the function is
invoked starting from round `k`. -/
def loopTaskInvocations (oneShot : Bool) (running : Nat → Bool) :
    Nat → Nat → Nat
  | 0, _ => 0
  | fuel + 1, k =>
      1 + (if oneShot = false ∧ running (k + 1) = true then
             loopTaskInvocations oneShot running fuel (k + 1)
           else 0)

/-- C5: a non-one-shot task whose function returns normally while the service
is still Running is re-invoked (at least two invocations happen, fuel
permitting); a one-shot task is never re-invoked (at most one invocation);
and a task returning when the service is no longer Running is not re-invoked
(exactly one invocation). -/
theorem loop_task_reinvocation (running : Nat → Bool) (fuel k : Nat) (b : Bool) :
    (running (k + 1) = true →
      2 ≤ loopTaskInvocations false running (fuel + 2) k) ∧
    loopTaskInvocations true running (fuel + 1) k = 1 ∧
    (running (k + 1) = false →
      loopTaskInvocations b running (fuel + 1) k = 1) := by
  refine ⟨fun h => ?_, by simp [loopTaskInvocations], fun h => ?_⟩
  · rw [loopTaskInvocations]
    simp only [h, and_self, if_pos, true_and]
    rw [loopTaskInvocations]
    omega
  · rw [loopTaskInvocations]
    simp [h]

/-- Concrete instance of `loop_task_reinvocation`: a service that stays
Running re-invokes the task; one that has left Running does not. -/
theorem loop_task_reinvocation_witness :
    (((fun _ => true) : Nat → Bool) (0 + 1) = true →
      2 ≤ loopTaskInvocations false (fun _ => true) (0 + 2) 0) ∧
    loopTaskInvocations true (fun _ => true) (0 + 1) 0 = 1 ∧
    (((fun _ => true) : Nat → Bool) (0 + 1) = false →
      loopTaskInvocations false (fun _ => true) (0 + 1) 0 = 1) :=
  loop_task_reinvocation (fun _ => true) 0 0 false

/-- Outcomes of the cancellable sleep (§4.1): either the timer expired after
the full duration, or the i-th stop signal fired first. -/
inductive Wakeup where
  | timerExpired : Wakeup
  | signaled : Nat → Wakeup
  deriving DecidableEq, Repr

/-- Modelled from the spec: `service.sleep(d)` bound to the service's
stop-or-crash signal (§4.1 / §4.6), on a discrete clock.  `now` is the call
time, `d` the duration, `stopAt` the time the stop signal fires (`none` =
never).  Returns the wake time and the cause: `Signaled 0` when the signal
fires before the timer would expire (returning early, immediately if the
signal already fired), `TimerExpired` otherwise. -/
def serviceSleep (now d : Nat) (stopAt : Option Nat) : Nat × Wakeup :=
  match stopAt with
  | none => (now + d, .timerExpired)
  | some T => if T < now + d then (max now T, .signaled 0) else (now + d, .timerExpired)

/-- Modelled from the spec: the public `sleep(duration, …)` entry (§4.1
Errors; changelog 0.4.0: "Make `want_seconds` raise `TypeError` when input is
`None`"): a `None` duration is rejected as `InvalidArgument` before any
sleeping happens; a present duration sleeps via `serviceSleep`. -/
def sleep (d : Option Nat) (now : Nat) (stopAt : Option Nat) :
    Except ModeError (Nat × Wakeup) :=
  match d with
  | none => .error .invalidArgument
  | some d => .ok (serviceSleep now d stopAt)

/-- C7: calling `sleep` with a `None` duration is rejected as invalid input:
it returns an `InvalidArgument` error rather than a `Wakeup` value, for every
call time and every stop-signal configuration. -/
theorem sleep_none_invalid_argument :
    ∀ (now : Nat) (stopAt : Option Nat),
      sleep none now stopAt = Except.error ModeError.invalidArgument := by
  intro now stopAt
  rfl

/-- Modelled from the spec: the cooperative background loop
`while not self.should_stop: await self.sleep(D)` (introduction docs and the
notebook's `_background_task`): starting at time `t`, if the stop signal has
fired (`T ≤ t`) the loop returns at `t`; otherwise it sleeps with period `D`
bound to the stop signal and retries.  `fuel` bounds the iterations; the
result is the time at which the loop returns. -/
def bgLoop (D T : Nat) : Nat → Nat → Nat
  | 0, t => t
  | fuel + 1, t =>
      if T ≤ t then t
      else bgLoop D T fuel (serviceSleep t D (some T)).1

/-- C10: `service.sleep(d)` returns early, exactly at the stop time with a
`Signaled` wakeup, when the stop-or-crash signal fires before the duration
elapses; consequently the background loop terminates cooperatively no later
than the stop time (in particular within one period of it), given positive
period and enough fuel to reach the stop time. -/
theorem sleep_returns_early_on_stop (t d D T fuel : Nat) :
    (t < T → T < t + d → serviceSleep t d (some T) = (T, Wakeup.signaled 0)) ∧
    (1 ≤ D → T ≤ t + fuel * D →
      T ≤ bgLoop D T fuel t ∧ bgLoop D T fuel t ≤ max t T) := by
  constructor
  · intro h1 h2
    simp only [serviceSleep, if_pos h2]
    rw [Nat.max_eq_right (Nat.le_of_lt h1)]
  · intro hD
    induction fuel generalizing t with
    | zero =>
        intro hT
        simp only [Nat.zero_mul, Nat.add_zero] at hT
        rw [bgLoop]
        exact ⟨hT, Nat.le_max_left _ _⟩
    | succ fuel ih =>
        intro hT
        rw [bgLoop]
        by_cases ht : T ≤ t
        · rw [if_pos ht]
          exact ⟨ht, Nat.le_max_left _ _⟩
        · rw [if_neg ht]
          push_neg at ht
          by_cases hw : T < t + D
          · have hs : (serviceSleep t D (some T)).1 = T := by
              simp only [serviceSleep, if_pos hw]
              exact Nat.max_eq_right (Nat.le_of_lt ht)
            rw [hs]
            have := ih T (by
              calc T ≤ T + fuel * D := Nat.le_add_right _ _)
            exact ⟨this.1, Nat.le_trans this.2
              (by rw [Nat.max_self]; exact Nat.le_max_right t T)⟩
          · have hs : (serviceSleep t D (some T)).1 = t + D := by
              simp only [serviceSleep, if_neg hw]
            rw [hs]
            push_neg at hw
            have hT' : T ≤ t + D + fuel * D := by
              rw [Nat.succ_mul] at hT
              omega
            have := ih (t + D) hT'
            refine ⟨this.1, Nat.le_trans this.2 ?_⟩
            rw [Nat.max_eq_right hw, Nat.max_eq_right (Nat.le_of_lt ht)]

/-- Concrete instance of `sleep_returns_early_on_stop`: stop fires at time 3
during a sleep of 5 starting at 0; the loop with period 2 returns by time 3. -/
theorem sleep_returns_early_on_stop_witness :
    ((0 : Nat) < 3 → 3 < 0 + 5 → serviceSleep 0 5 (some 3) = (3, Wakeup.signaled 0)) ∧
    (1 ≤ 2 → 3 ≤ 0 + 5 * 2 →
      3 ≤ bgLoop 2 3 5 0 ∧ bgLoop 2 3 5 0 ≤ max 0 3) :=
  sleep_returns_early_on_stop 0 5 2 3 5

/-- Modelled from the spec: the fire schedule of an interval timer with
period `D` and instantaneous handlers (§4.4; changelog 0.2.0: "Fix timer wait
twice before execution; Add optional arg to execute immediately").  The n-th
fire (0-based): an eager timer fires first at t = 0, a lazy one first at
t = D; afterwards the timer waits D between completions. -/
def timerFire (D : Nat) (eager : Bool) : Nat → Nat
  | 0 => if eager then 0 else D
  | n + 1 => timerFire D eager n + D

/-- C8: an eager interval timer fires first at t = 0 and a lazy one first at
t = D, so no timer waits more than one period before its first execution; and
every subsequent fire waits exactly D after the previous completion, giving
the closed-form schedule. -/
theorem interval_timer_schedule (D : Nat) (eager : Bool) (n : Nat) :
    timerFire D true 0 = 0 ∧
    timerFire D false 0 = D ∧
    timerFire D eager 0 ≤ D ∧
    timerFire D eager (n + 1) = timerFire D eager n + D ∧
    timerFire D eager n = (if eager then 0 else D) + n * D := by
  refine ⟨rfl, rfl, ?_, rfl, ?_⟩
  · cases eager <;> simp [timerFire]
  · induction n with
    | zero => simp [timerFire]
    | succ k ih =>
        rw [timerFire, ih, Nat.succ_mul]
        omega

/-- Modelled from the spec: the host event loop as seen by the embedding API
(§4.6; changelog 0.5.0: the Worker can be embedded "without terminating all
while worker shutdown").  The only observable the claims need is whether the
loop has been closed. -/
structure EventLoop where
  closed : Bool
  deriving DecidableEq, Repr

/-- Handle returned by `start_system`, carrying the running service. -/
structure SystemHandle where
  svc : ServiceRec
  deriving DecidableEq, Repr

/-- Modelled from the spec: `Worker.start_system` (`worker.py` is not in the
source tree; changelog 0.5.0 separates `start` and `join`): schedules the
service's start on the given loop and returns a handle without shutting
anything down; fails if the loop is closed. -/
def start_system (l : EventLoop) (s : ServiceRec) : Option (EventLoop × SystemHandle) :=
  if l.closed then none else some (l, ⟨startCall s⟩)

/-- Modelled from the spec: `Worker.join` (changelog 0.5.0/0.6.1: `join`
completes when the service is Shutdown, suppresses the `CancelledError`, and
leaves the loop running rather than terminating it): it drives the service's
stop protocol to completion and returns the final service together with the
loop, which it does not close. -/
def join (l : EventLoop) (h : SystemHandle) : EventLoop × ServiceRec :=
  (l, stopCall h.svc)

/-- C6: on an open loop, `start_system` returns a handle; `join` on that
handle completes with the service in Shutdown (with `stopped` and `shutdown`
raised); and the loop `join` hands back is still open, so a subsequent
`start_system` on the same loop succeeds. -/
theorem start_system_join_cycle (l : EventLoop) (s s2 : ServiceRec)
    (hl : l.closed = false) (hs : s.state = SState.init) :
    ∃ l1 h1, start_system l s = some (l1, h1) ∧
      (join l1 h1).2.state = SState.shutdown ∧
      (join l1 h1).2.stoppedFlag = true ∧
      (join l1 h1).2.shutdownFlag = true ∧
      (join l1 h1).1.closed = false ∧
      ∃ r, start_system (join l1 h1).1 s2 = some r := by
  refine ⟨l, ⟨startCall s⟩, by simp [start_system, hl], ?_⟩
  have hrun : (startCall s).state = SState.running := by
    simp [startCall, hs]
  refine ⟨?_, ?_, ?_, ?_, ⟨(l, ⟨startCall s2⟩), ?_⟩⟩
  · simp [join, stopCall, hrun]
  · simp [join, stopCall, hrun]
  · simp [join, stopCall, hrun]
  · simp [join, hl]
  · simp [join, start_system, hl]

/-- Concrete instance of `start_system_join_cycle`: a fresh service on an
open loop. -/
theorem start_system_join_cycle_witness :
    ∃ l1 h1, start_system ⟨false⟩ ServiceRec.fresh = some (l1, h1) ∧
      (join l1 h1).2.state = SState.shutdown ∧
      (join l1 h1).2.stoppedFlag = true ∧
      (join l1 h1).2.shutdownFlag = true ∧
      (join l1 h1).1.closed = false ∧
      ∃ r, start_system (join l1 h1).1 ServiceRec.fresh = some r :=
  start_system_join_cycle ⟨false⟩ ServiceRec.fresh ServiceRec.fresh rfl rfl

end ModeNG
